import Mathlib

/-!
Shallow embedding of the terminal-session bridge from `src/lib/terminal.go`
(package `lib`) and its caller in `src/server.go`.

Modelling conventions:
  * Go byte slices become `List Nat`; strings stay `String`.
  * A Go channel's pending contents become a `List` threaded as explicit
    state; a receive on an empty channel that nothing will feed is the
    `blocked` outcome of a step function.
  * Go `error` values become `Option Err` (`none` = nil error); external
    collaborators (the websocket library, the remote-exec transport, the
    random source) are parameters supplying the results the Go code reads
    from them.
  * The global map `terminalSessions` becomes a `Registry` value threaded
    through the functions that touch it.
-/

namespace KTS

/-- Error values the embedded code distinguishes. `eofSignal` is the
end-of-stream signal the spec talks about; it is representable so that
claims about it can be stated, though no code path produces it. -/
inductive Err
  | upgradeFailed
  | entropyFailed
  | execStartFailed
  | streamReset
  | writeFailed
  | sockReadFailed
  | eofSignal
  deriving DecidableEq

/-- A websocket connection handle. `upgrader.Upgrade` hands back either a
live connection or (on failure) a nil pointer, which the Go code stores
unchecked; `nilConn` models that nil handle. -/
inductive Conn
  | nilConn
  | live (n : Nat)
  deriving DecidableEq

/-- The static fields of `TerminalSession` (terminal.go lines 47-55): the
registry key and the owned socket handle. The channels (`sizeChan`,
`receiver`, `sender`, `bound`) carry dynamic contents and are modelled as
explicit state (`Chans`) threaded through the operation step functions. -/
structure TerminalSession where
  id : String
  sockConn : Conn
  deriving DecidableEq

/-- Dynamic channel state of one session: the frames pending on the
`receiver` channel, the events pending on `sizeChan`, and whether the
socket connection has been closed (the only notion of "closing" the
session has - there is no dedicated shutdown flag in the source). -/
structure Chans where
  receiver : List (List Nat)
  sizeChan : List (Nat × Nat)
  connClosed : Bool
  deriving DecidableEq

/-- The global session registry `terminalSessions` (terminal.go line 29),
a plain Go map from session id to session. Represented as an association
list where the most recent insert shadows older entries, matching map
assignment's overwrite semantics. -/
abbrev Registry := List (String × TerminalSession)

/-- Go map lookup `terminalSessions[sessionId]`: the most recently
inserted binding for the key wins. -/
def Registry.lookup : Registry → String → Option TerminalSession
  | [], _ => none
  | (k, s) :: rest, key => if k = key then some s else Registry.lookup rest key

/-- Go map assignment `terminalSessions[sessionId] = terminalSession`:
plain overwrite, no occupancy check, no error. -/
def Registry.insert (r : Registry) (key : String) (s : TerminalSession) : Registry :=
  (key, s) :: r

/-- One hex digit as produced by `encoding/hex` (lowercase). -/
def hexDigitChar (n : Nat) : Char :=
  if n < 10 then Char.ofNat (48 + n) else Char.ofNat (87 + n)

/-- `encoding/hex` encoding of one byte: two lowercase hex characters. -/
def hexEncodeByte (b : Nat) : List Char :=
  [hexDigitChar (b / 16), hexDigitChar (b % 16)]

/-- `GenTerminalSessionId` (terminal.go lines 179-187): reads 16 bytes
from `crypto/rand` and hex-encodes them. The random source's answer is
the parameter: either the filled byte slice or a read error. On a read
error the function returns `("", err)`. -/
def GenTerminalSessionId (randRead : Except Err (List Nat)) : String × Option Err :=
  match randRead with
  | .error e => ("", some e)
  | .ok bytes => (String.mk ((bytes.map hexEncodeByte).flatten), none)

/-- `CreateSession` (terminal.go lines 189-207). The upgrade result and
the random source's answer are parameters. Faithful to the source:
  * a failed upgrade is only logged - the nil connection is kept and used;
  * the error component of `GenTerminalSessionId` is discarded
    (`sessionId, _ := ...`), so an entropy failure yields the id `""`;
  * the session is registered unconditionally and the returned error is
    always nil.
Returns (updated registry, returned session id, returned error). -/
def CreateSession (upgrade : Except Err Conn) (randRead : Except Err (List Nat))
    (reg : Registry) : Registry × String × Option Err :=
  let conn : Conn :=
    match upgrade with
    | .ok c => c
    | .error _ => Conn.nilConn
  let sessionId := (GenTerminalSessionId randRead).1
  let terminalSession : TerminalSession := ⟨sessionId, conn⟩
  (reg.insert sessionId terminalSession, sessionId, none)

/-- Outcome of one `Read` call (terminal.go lines 68-71). `blocked` is a
receive on an empty `receiver` channel (the call does not return);
`ret n data err` is a return of byte count `n`, the bytes copied into the
buffer, and the Go error value. End-of-stream would be
`ret 0 [] (some Err.eofSignal)`. -/
inductive ReadOutcome
  | blocked
  | ret (n : Nat) (data : List Nat) (err : Option Err)
  deriving DecidableEq

/-- `TerminalSession.Read` (terminal.go lines 68-71):
`m := <-t.receiver; return copy(p, m), nil`. It receives one chunk from
the `receiver` channel and copies as much of it as fits into the buffer
of capacity `bufCap`; `copy` returns `min bufCap m.length` and the rest
of the chunk is dropped. The error returned is always nil: the function
never consults `connClosed` and has no end-of-stream path, so on an empty
channel it blocks regardless of the connection's state. -/
def TerminalSession.Read (c : Chans) (bufCap : Nat) : ReadOutcome × Chans :=
  match c.receiver with
  | [] => (ReadOutcome.blocked, c)
  | m :: rest => (ReadOutcome.ret (min bufCap m.length) (m.take bufCap) none,
      { c with receiver := rest })

/-- `TerminalSession.Write` (terminal.go lines 75-81). The websocket
library's answer to `WriteMessage` is the parameter `sockErr`: if the
write fails the error is returned with count 0, otherwise the full byte
count is returned with a nil error. Total - the source neither panics nor
loops here. -/
def TerminalSession.Write (sockErr : Option Err) (p : List Nat) : Nat × Option Err :=
  match sockErr with
  | some e => (0, some e)
  | none => (p.length, none)

/-- Outcome of one `Next` call (terminal.go lines 59-64). `blocked` is a
receive on an empty `sizeChan` (the one-case `select` has no default and
no closing case); `ret sz` returns a resize event; `endOfEvents` would be
the nil return that signals end-of-events to remotecommand. -/
inductive NextOutcome
  | blocked
  | ret (sz : Nat × Nat)
  | endOfEvents
  deriving DecidableEq

/-- `TerminalSession.Next` (terminal.go lines 59-64): a `select` with the
single case `size := <-t.sizeChan`, returning `&size`. It blocks until
`sizeChan` yields an event, independent of the connection's state, and
its only return path returns an event - it never returns nil. -/
def TerminalSession.Next (c : Chans) : NextOutcome × Chans :=
  match c.sizeChan with
  | [] => (NextOutcome.blocked, c)
  | sz :: rest => (NextOutcome.ret sz, { c with sizeChan := rest })

/-- `readFromWebTerminal` (terminal.go lines 209-219): loops on
`sockConn.ReadMessage`, forwarding each received frame to the `receiver`
channel in order, and exits on the first read error. The socket's frame
sequence is the parameter: `Sum.inr m` is a delivered frame, `Sum.inl e`
the read error ending the loop. Returns the frames placed on the
`receiver` channel, in order. -/
def readFromWebTerminal : List (Err ⊕ List Nat) → List (List Nat)
  | [] => []
  | Sum.inl _ :: _ => []
  | Sum.inr m :: rest => m :: readFromWebTerminal rest

/-- A sequence of `TerminalSession.Read` calls by the remote-exec
collaborator, one per buffer capacity in `caps`, each consuming the next
pending chunk: the list of byte slices the collaborator receives, in
order. A call that blocks (empty `receiver` channel with nothing left to
feed it) never returns, so collection stops there. -/
def runReads (c : Chans) : List Nat → List (List Nat)
  | [] => []
  | cap :: caps =>
    match TerminalSession.Read c cap with
    | (ReadOutcome.ret _ data _, c2) => data :: runReads c2 caps
    | (ReadOutcome.blocked, _) => []

/-- What one `execPod` call (terminal.go lines 143-177) did from the
orchestrator's point of view: the shell failed to start (executor
construction or the exec stream refused to launch the command), or the
stream began and later failed, or the stream began and ended cleanly. -/
inductive ExecOutcome
  | startFailed (e : Err)
  | streamedThenErr (e : Err)
  | streamedOk
  deriving DecidableEq

/-- The error value `execPod` returns for an outcome: any failure is
surfaced as a plain error, indistinguishable to the caller from any
other failure; a clean stream returns nil. -/
def execPodErr : ExecOutcome → Option Err
  | .startFailed e => some e
  | .streamedThenErr e => some e
  | .streamedOk => none

/-- `execPod`'s own error plumbing (terminal.go lines 161-176): a
`NewSPDYExecutor` error returns immediately; otherwise the result of
`exec.Stream` is returned (its error if any, else nil). -/
def execPod (executorErr : Option Err) (streamRes : Option Err) : Option Err :=
  match executorErr with
  | some e => some e
  | none => streamRes

/-- Observable events of one `ExecTerminal` run, in program order. -/
inductive Ev
  | startReaderLoop
  | tryShell (shell : String)
  | streamStarted (shell : String)
  | logExecPodErr (shell : String) (e : Err)
  | logExecTerminalErr (e : Err)
  | logTerminalClosed
  | closeSession (id : String)
  deriving DecidableEq

/-- Events of one iteration of the shell loop: the `execPod` attempt,
with a `streamStarted` marker when the shell did launch and streaming
began. -/
def attemptEvents (shell : String) : ExecOutcome → List Ev
  | .startFailed _ => [Ev.tryShell shell]
  | .streamedThenErr _ => [Ev.tryShell shell, Ev.streamStarted shell]
  | .streamedOk => [Ev.tryShell shell, Ev.streamStarted shell]

/-- The candidate loop of `ExecTerminal` (terminal.go lines 246-254):
`for _, shell := range shells` calling `execPod`. The accumulator `err`
is the loop variable `var err error`: each iteration overwrites it with
that attempt's result; a nil result breaks out of the loop, an error is
logged and the next candidate is tried. Returns (events, final `err`). -/
def tryShellsAux (res : String → ExecOutcome) (err : Option Err) :
    List String → List Ev × Option Err
  | [] => ([], err)
  | shell :: rest =>
    match execPodErr (res shell) with
    | none => (attemptEvents shell (res shell), none)
    | some e =>
      let tail := tryShellsAux res (some e) rest
      (attemptEvents shell (res shell) ++ Ev.logExecPodErr shell e :: tail.1, tail.2)

/-- The whole candidate loop, entered with `err` at its nil zero value. -/
def tryShells (res : String → ExecOutcome) (cands : List String) : List Ev × Option Err :=
  tryShellsAux res none cands

/-- The fixed candidate list `shells := []string\x7b"bash", "sh"\x7d`
(terminal.go line 246). -/
def shells : List String := ["bash", "sh"]

/-- `ExecTerminal` (terminal.go lines 241-261). `res` gives each shell
candidate's `execPod` outcome. In order: the deferred
`terminalSessions[sessionId].Close()` is registered, the socket reader
loop is spawned, the candidate loop runs, the final `err` decides which
log line is printed, and on function exit the deferred `Close` runs.
The registry is returned unchanged: no statement in the function (or
anywhere in the package) deletes the session's entry. -/
def ExecTerminal (sessionId : String) (res : String → ExecOutcome)
    (reg : Registry) : List Ev × Registry :=
  let loop := tryShells res shells
  let tail :=
    match loop.2 with
    | some e => [Ev.logExecTerminalErr e]
    | none => [Ev.logTerminalClosed]
  (Ev.startReaderLoop :: loop.1 ++ tail ++ [Ev.closeSession sessionId], reg)

/-! ## Helper lemmas -/

/-- The shell loop emits no `closeSession` event: closing is owned by
the deferred call in `ExecTerminal` alone. -/
theorem count_closeSession_tryShellsAux (res : String → ExecOutcome) (err : Option Err)
    (cands : List String) (id : String) :
    ((tryShellsAux res err cands).1.count (Ev.closeSession id)) = 0 := by
  induction cands generalizing err with
  | nil => simp [tryShellsAux]
  | cons shell rest ih =>
    unfold tryShellsAux
    cases hres : execPodErr (res shell) with
    | none => cases res shell <;> simp_all [attemptEvents, List.count_cons]
    | some e =>
      cases res shell <;>
        simp_all [attemptEvents, List.count_cons, List.count_append]

/-- The shell loop's events never look past `tryShell`, `streamStarted`
and `logExecPodErr`; in particular `closeSession` is absent. -/
theorem closeSession_not_mem_tryShells (res : String → ExecOutcome)
    (cands : List String) (id : String) :
    Ev.closeSession id ∉ (tryShells res cands).1 :=
  List.count_eq_zero.mp (count_closeSession_tryShellsAux res none cands id)

/-! ## Claims -/

/-- Claim C2 (confirmed): on every execution path of `ExecTerminal` the
session's `Close` runs exactly once, as the final action on exit of the
orchestrator, and never twice: the event trace contains exactly one
`closeSession` event and it is the last event (everything else precedes
it). -/
theorem c2_close_exactly_once (id : String) (res : String → ExecOutcome) (reg : Registry) :
    ((ExecTerminal id res reg).1.count (Ev.closeSession id) = 1) ∧
    (∃ pre, (ExecTerminal id res reg).1 = pre ++ [Ev.closeSession id]) := by
  unfold ExecTerminal
  refine ⟨?_, ?_⟩
  · have h := count_closeSession_tryShellsAux res none shells id
    cases htail : (tryShells res shells).2 <;>
      simp_all [tryShells, List.count_cons, List.count_append]
  · cases htail : (tryShells res shells).2 with
    | none =>
      exact ⟨Ev.startReaderLoop :: (tryShells res shells).1 ++ [Ev.logTerminalClosed],
        by simp [htail]⟩
    | some e =>
      exact ⟨Ev.startReaderLoop :: (tryShells res shells).1 ++ [Ev.logExecTerminalErr e],
        by simp [htail]⟩

/-- Claim C1 counterexample: a session registered under id `"a"`,
created and immediately closed with no bytes exchanged (every shell
candidate fails at start, so no streaming occurred), still has its
registry entry after `ExecTerminal` finishes: the connection is closed
(the `closeSession` event occurs) but the entry was never removed. -/
theorem c1_registry_entry_survives_cex :
    (Ev.closeSession "a" ∈
      (ExecTerminal "a" (fun _ => ExecOutcome.startFailed Err.execStartFailed)
        (Registry.insert [] "a" ⟨"a", Conn.live 0⟩)).1) ∧
    (Registry.lookup
      (ExecTerminal "a" (fun _ => ExecOutcome.startFailed Err.execStartFailed)
        (Registry.insert [] "a" ⟨"a", Conn.live 0⟩)).2 "a" ≠ none) := by
  refine ⟨?_, ?_⟩ <;> decide

/-- Claim C1 as amended: when the stream call returns, `ExecTerminal`
closes the connection (exactly one `closeSession` event occurs, on every
path), but it never removes the session's entry from the registry — the
registry is returned exactly as it was, so a session created and
immediately closed keeps its entry. -/
theorem c1_close_without_removal (id : String) (res : String → ExecOutcome) (reg : Registry) :
    (Ev.closeSession id ∈ (ExecTerminal id res reg).1) ∧
    ((ExecTerminal id res reg).2 = reg) := by
  refine ⟨?_, rfl⟩
  unfold ExecTerminal
  simp

/-- Claim C3 (code bug): session creation does not abort on failure.
Evaluated at the failing inputs: (i) the upgrade fails — the error is
only logged, a session holding the nil connection handle is still
registered, and the returned error is nil (the caller in `server.go`
checks `if err == nil`, so it wrongly proceeds to `ExecTerminal`);
(ii) the random source fails — `sessionId, _ :=` discards the entropy
error, and a session with the empty-string id is registered, again with
a nil returned error. -/
theorem c3_creation_does_not_abort :
    ((CreateSession (Except.error Err.upgradeFailed) (Except.ok (List.replicate 16 0)) []).2.2
        = none) ∧
    (Registry.lookup
        (CreateSession (Except.error Err.upgradeFailed) (Except.ok (List.replicate 16 0)) []).1
        (GenTerminalSessionId (Except.ok (List.replicate 16 0))).1
        = some ⟨(GenTerminalSessionId (Except.ok (List.replicate 16 0))).1, Conn.nilConn⟩) ∧
    (GenTerminalSessionId (Except.error Err.entropyFailed)
        = ("", some Err.entropyFailed)) ∧
    ((CreateSession (Except.ok (Conn.live 1)) (Except.error Err.entropyFailed) []).2
        = ("", none)) ∧
    (Registry.lookup
        (CreateSession (Except.ok (Conn.live 1)) (Except.error Err.entropyFailed) []).1 ""
        = some ⟨"", Conn.live 1⟩) := by
  refine ⟨rfl, ?_, rfl, rfl, ?_⟩ <;> decide

/-- Claim C4 counterexample: with an environment where `"bash"` starts
successfully (streaming begins) but its stream then errors, the claim's
"the first candidate whose start succeeds wins and later candidates are
not tried" fails: the trace shows `"bash"`'s stream started, yet
`"sh"` is tried afterwards. -/
theorem c4_start_success_does_not_win_cex :
    (Ev.streamStarted "bash" ∈
      (ExecTerminal "b"
        (fun sh => if sh = "bash" then ExecOutcome.streamedThenErr Err.streamReset
          else ExecOutcome.streamedOk) []).1) ∧
    (Ev.tryShell "sh" ∈
      (ExecTerminal "b"
        (fun sh => if sh = "bash" then ExecOutcome.streamedThenErr Err.streamReset
          else ExecOutcome.streamedOk) []).1) := by
  refine ⟨?_, ?_⟩ <;> decide

/-- Claim C4 as amended: the first candidate whose whole `execPod` call
returns without error wins and later candidates are not tried (start
success alone is not enough — a candidate that starts but whose stream
errors counts as failed and the next candidate is tried); if every
candidate fails to start, the session reaches `Closed` reporting the
last error, without ever entering `Streaming`. -/
theorem c4_first_clean_candidate_wins (id : String) (reg : Registry) (o2 : ExecOutcome)
    (e1 e2 : Err) :
    ((ExecTerminal id (fun sh => if sh = "bash" then ExecOutcome.streamedOk else o2) reg).1
      = [Ev.startReaderLoop, Ev.tryShell "bash", Ev.streamStarted "bash",
         Ev.logTerminalClosed, Ev.closeSession id]) ∧
    (Ev.tryShell "sh" ∉
      (ExecTerminal id (fun sh => if sh = "bash" then ExecOutcome.streamedOk else o2) reg).1) ∧
    ((ExecTerminal id
        (fun sh => if sh = "bash" then ExecOutcome.startFailed e1 else ExecOutcome.startFailed e2)
        reg).1
      = [Ev.startReaderLoop, Ev.tryShell "bash", Ev.logExecPodErr "bash" e1,
         Ev.tryShell "sh", Ev.logExecPodErr "sh" e2,
         Ev.logExecTerminalErr e2, Ev.closeSession id]) ∧
    (∀ s, Ev.streamStarted s ∉
      (ExecTerminal id
        (fun sh => if sh = "bash" then ExecOutcome.startFailed e1 else ExecOutcome.startFailed e2)
        reg).1) := by
  refine ⟨rfl, ?_, rfl, ?_⟩
  · simp [ExecTerminal, tryShells, tryShellsAux, shells, attemptEvents, execPodErr]
  · intro s
    simp [ExecTerminal, tryShells, tryShellsAux, shells, attemptEvents, execPodErr]

/-- Claim C5 counterexample: a streaming-phase error is not terminal.
With `"bash"` streaming and then failing with a write error, the
orchestrator makes a further attach and streaming attempt with `"sh"`
for the same session, contradicting "no further attach or streaming
attempt for that session". -/
theorem c5_stream_error_not_terminal_cex :
    (Ev.streamStarted "bash" ∈
      (ExecTerminal "c"
        (fun sh => if sh = "bash" then ExecOutcome.streamedThenErr Err.writeFailed
          else ExecOutcome.streamedOk) []).1) ∧
    (Ev.streamStarted "sh" ∈
      (ExecTerminal "c"
        (fun sh => if sh = "bash" then ExecOutcome.streamedThenErr Err.writeFailed
          else ExecOutcome.streamedOk) []).1) := by
  refine ⟨?_, ?_⟩ <;> decide

/-- Claim C5 as amended: a streaming-phase error is indistinguishable to
the orchestrator from a start failure — it is logged and the next
candidate is attached; only an error on the last candidate is terminal:
it is logged, the session closes, and nothing follows the close (no
automatic reconnect). -/
theorem c5_stream_error_retries_then_terminal (id : String) (reg : Registry)
    (e1 e2 : Err) (o2 : ExecOutcome) :
    (Ev.tryShell "sh" ∈
      (ExecTerminal id (fun sh => if sh = "bash" then ExecOutcome.streamedThenErr e1 else o2)
        reg).1) ∧
    ((ExecTerminal id
        (fun sh => if sh = "bash" then ExecOutcome.startFailed e1
          else ExecOutcome.streamedThenErr e2) reg).1
      = [Ev.startReaderLoop, Ev.tryShell "bash", Ev.logExecPodErr "bash" e1,
         Ev.tryShell "sh", Ev.streamStarted "sh", Ev.logExecPodErr "sh" e2,
         Ev.logExecTerminalErr e2, Ev.closeSession id]) := by
  refine ⟨?_, ?_⟩
  · cases o2 <;>
      simp [ExecTerminal, tryShells, tryShellsAux, shells, attemptEvents, execPodErr]
  · rfl

/-- The reader loop forwards every frame the socket delivers before the
first read error, in order, onto the `receiver` channel. -/
theorem readFromWebTerminal_forwards_in_order (frames : List (List Nat)) (e : Err) :
    readFromWebTerminal (frames.map Sum.inr ++ [Sum.inl e]) = frames := by
  induction frames with
  | nil => rfl
  | cons m rest ih => simp [readFromWebTerminal, ih]

/-- When every read buffer is at least as long as the chunk it receives,
successive `Read` calls return exactly the pending chunks, in order. -/
theorem runReads_exact (chunks : List (List Nat)) (caps : List Nat)
    (szs : List (Nat × Nat)) (closed : Bool)
    (hlen : caps.length = chunks.length)
    (hfit : ∀ p ∈ chunks.zip caps, (Prod.fst p).length ≤ Prod.snd p) :
    runReads ⟨chunks, szs, closed⟩ caps = chunks := by
  induction chunks generalizing caps with
  | nil =>
    cases caps with
    | nil => rfl
    | cons c cs => simp at hlen
  | cons m rest ih =>
    cases caps with
    | nil => simp at hlen
    | cons cap caps2 =>
      have hm : m.length ≤ cap := hfit (m, cap) (by simp)
      have htail : ∀ p ∈ rest.zip caps2, (Prod.fst p).length ≤ Prod.snd p := by
        intro p hp
        exact hfit p (by simp [hp])
      simp only [runReads, TerminalSession.Read]
      rw [List.take_of_length_le hm, ih caps2 (by simpa using hlen) htail]

/-- Claim C6 counterexample: a chunk larger than the collaborator's
buffer is truncated, so bytes are lost. The reader loop places the
two-byte frame `[7, 8]` on the inbound channel; a `Read` with a one-byte
buffer returns `[7]` and the rest of the chunk is dropped — the next
`Read` blocks on the empty channel. The concatenation of the bytes
returned is `[7]`, not `[7, 8]`. -/
theorem c6_chunk_truncation_loses_bytes_cex :
    (readFromWebTerminal [Sum.inr [7, 8], Sum.inl Err.sockReadFailed] = [[7, 8]]) ∧
    ((runReads ⟨[[7, 8]], [], false⟩ [1, 5]).flatten = [7]) ∧
    ((runReads ⟨[[7, 8]], [], false⟩ [1, 5]).flatten ≠ [7, 8]) := by
  refine ⟨rfl, rfl, ?_⟩
  decide

/-- Claim C6 as amended: ordering is FIFO by construction — the reader
loop forwards socket frames to the inbound channel in order, and
successive `Read` calls consume chunks in that order — but the
no-loss half only holds when every read buffer is at least as long as
the chunk it receives (`Read` drops the part of a chunk that does not
fit); under that condition the concatenation of the bytes returned by
successive `Read` calls equals the concatenation of the inbound chunks. -/
theorem c6_fifo_no_loss_when_buffers_fit (chunks : List (List Nat)) (caps : List Nat)
    (szs : List (Nat × Nat)) (closed : Bool) (frames : List (List Nat)) (e : Err)
    (hlen : caps.length = chunks.length)
    (hfit : ∀ p ∈ chunks.zip caps, (Prod.fst p).length ≤ Prod.snd p) :
    (readFromWebTerminal (frames.map Sum.inr ++ [Sum.inl e]) = frames) ∧
    (runReads ⟨chunks, szs, closed⟩ caps = chunks) ∧
    ((runReads ⟨chunks, szs, closed⟩ caps).flatten = chunks.flatten) := by
  refine ⟨readFromWebTerminal_forwards_in_order frames e, ?_, ?_⟩ <;>
    rw [runReads_exact chunks caps szs closed hlen hfit]

/-- Witness for C6 as amended, at chunks `[[1], [2, 3]]` with buffer
capacities `[1, 2]`. -/
theorem c6_fifo_no_loss_witness :
    (([1, 2] : List Nat).length = ([[1], [2, 3]] : List (List Nat)).length) ∧
    ((readFromWebTerminal ([[1], [2, 3]].map Sum.inr ++ [Sum.inl Err.sockReadFailed])
        = [[1], [2, 3]]) ∧
     (runReads ⟨[[1], [2, 3]], [], false⟩ [1, 2] = [[1], [2, 3]]) ∧
     ((runReads ⟨[[1], [2, 3]], [], false⟩ [1, 2]).flatten = [[1], [2, 3]].flatten)) :=
  ⟨by decide,
    c6_fifo_no_loss_when_buffers_fit [[1], [2, 3]] [1, 2] [] false [[1], [2, 3]]
      Err.sockReadFailed (by decide) (by decide)⟩

/-- Claim C7 counterexample: with the session closing (connection
closed) and nothing on the inbound channel, `Read` blocks instead of
returning end-of-stream; and when a chunk is available in a closing
session, `Read` returns it with a nil error — no path returns
end-of-stream. -/
theorem c7_no_eof_on_closing_cex :
    (TerminalSession.Read ⟨[], [], true⟩ 4 = (ReadOutcome.blocked, ⟨[], [], true⟩)) ∧
    ((TerminalSession.Read ⟨[[9]], [], true⟩ 4).1 = ReadOutcome.ret 1 [9] none) ∧
    (ReadOutcome.blocked ≠ ReadOutcome.ret 0 [] (some Err.eofSignal)) ∧
    (ReadOutcome.ret 1 [9] none ≠ ReadOutcome.ret 1 [9] (some Err.eofSignal)) := by
  refine ⟨rfl, rfl, ?_, ?_⟩ <;> decide

/-- Claim C7 as amended: `Read` blocks until a chunk is available on the
inbound channel, copies as many bytes of that chunk as fit into the
buffer, and returns the count with a nil error — independent of whether
the session is closing; it has no end-of-stream path: when the session
is closing it blocks on an empty channel rather than returning
end-of-stream, and any returning call carries a nil error. -/
theorem c7_read_copies_what_fits (m : List Nat) (rest : List (List Nat))
    (szs : List (Nat × Nat)) (closed : Bool) (cap : Nat) :
    (TerminalSession.Read ⟨m :: rest, szs, closed⟩ cap
      = (ReadOutcome.ret (min cap m.length) (m.take cap) none, ⟨rest, szs, closed⟩)) ∧
    (TerminalSession.Read ⟨[], szs, closed⟩ cap = (ReadOutcome.blocked, ⟨[], szs, closed⟩)) ∧
    (∀ c : Chans, ∀ n : Nat, ∀ data : List Nat,
      (TerminalSession.Read c cap).1 ≠ ReadOutcome.ret n data (some Err.eofSignal)) := by
  refine ⟨rfl, rfl, ?_⟩
  intro c n data
  cases hrec : c.receiver with
  | nil => simp [TerminalSession.Read, hrec]
  | cons m2 rest2 => simp [TerminalSession.Read, hrec]

/-- Claim C8 (confirmed): `Write` forwards the bytes as one frame and
returns the byte count with a nil error on success; when the socket
write fails it returns the error (count 0) — the model is a total
function, mirroring that the source's write path neither panics nor
loops. `execPod` returns the stream call's error unchanged to the
orchestrator, which receives and logs it. -/
theorem c8_write_error_propagates (e : Err) (p : List Nat) (id : String)
    (reg : Registry) (o2 : ExecOutcome) :
    (TerminalSession.Write (some e) p = (0, some e)) ∧
    (TerminalSession.Write none p = (p.length, none)) ∧
    (execPod none (some e) = some e) ∧
    (Ev.logExecPodErr "bash" e ∈
      (ExecTerminal id
        (fun sh => if sh = "bash" then ExecOutcome.streamedThenErr e else o2) reg).1) := by
  refine ⟨rfl, rfl, rfl, ?_⟩
  cases o2 <;>
    simp [ExecTerminal, tryShells, tryShellsAux, shells, attemptEvents, execPodErr]

/-- Claim C9 counterexample: with the session closing and no pending
resize event, `Next` blocks on the empty `sizeChan` instead of signaling
end-of-events; its single return path yields an event, so no call ever
signals end-of-events. -/
theorem c9_no_end_of_events_cex :
    (TerminalSession.Next ⟨[], [], true⟩ = (NextOutcome.blocked, ⟨[], [], true⟩)) ∧
    (NextOutcome.blocked ≠ NextOutcome.endOfEvents) := by
  refine ⟨rfl, ?_⟩
  decide

/-- Claim C9 as amended: `Next` blocks until a resize event is available
on `sizeChan` and returns it; it has no closing path — when the session
is closing it keeps blocking on an empty channel, and no call ever
signals end-of-events (and since no component ever feeds `sizeChan`, in
the running system `Next` blocks forever). -/
theorem c9_next_blocks_never_signals_end (sz : Nat × Nat) (rest : List (Nat × Nat))
    (recv : List (List Nat)) (closed : Bool) :
    (TerminalSession.Next ⟨recv, sz :: rest, closed⟩
      = (NextOutcome.ret sz, ⟨recv, rest, closed⟩)) ∧
    (TerminalSession.Next ⟨recv, [], closed⟩ = (NextOutcome.blocked, ⟨recv, [], closed⟩)) ∧
    (∀ c : Chans, (TerminalSession.Next c).1 ≠ NextOutcome.endOfEvents) := by
  refine ⟨rfl, rfl, ?_⟩
  intro c
  cases hsz : c.sizeChan with
  | nil => simp [TerminalSession.Next, hsz]
  | cons s2 rest2 => simp [TerminalSession.Next, hsz]

/-- Claim C10 (confirmed): if the generated identifier already keys a
live session, `CreateSession` overwrites the registry binding with the
new session via plain map assignment: no error is raised (the returned
error is nil), every later lookup of the id yields the new session (the
old one is unreachable through the registry), and the old session's
entry — its connection untouched, since `CreateSession` never calls
`Close` — merely sits shadowed behind the new binding. -/
theorem c10_duplicate_id_silently_overwrites (reg : Registry) (old : TerminalSession)
    (upgrade : Except Err Conn) (randRead : Except Err (List Nat))
    (h : Registry.lookup reg (GenTerminalSessionId randRead).1 = some old) :
    ((CreateSession upgrade randRead reg).2.2 = none) ∧
    ((CreateSession upgrade randRead reg).1 =
      ((GenTerminalSessionId randRead).1,
        (⟨(GenTerminalSessionId randRead).1,
          match upgrade with
          | .ok c => c
          | .error _ => Conn.nilConn⟩ : TerminalSession)) :: reg) ∧
    (Registry.lookup (CreateSession upgrade randRead reg).1 (GenTerminalSessionId randRead).1
      = some ⟨(GenTerminalSessionId randRead).1,
          match upgrade with
          | .ok c => c
          | .error _ => Conn.nilConn⟩) := by
  refine ⟨rfl, ?_, ?_⟩
  · cases upgrade <;> rfl
  · cases upgrade <;> simp [CreateSession, Registry.insert, Registry.lookup]

/-- Witness for C10 at a registry already holding the id generated from
sixteen zero bytes. -/
theorem c10_duplicate_id_witness :
    (Registry.lookup
        [((GenTerminalSessionId (Except.ok (List.replicate 16 0))).1,
          ⟨(GenTerminalSessionId (Except.ok (List.replicate 16 0))).1, Conn.live 7⟩)]
        (GenTerminalSessionId (Except.ok (List.replicate 16 0))).1
      = some ⟨(GenTerminalSessionId (Except.ok (List.replicate 16 0))).1, Conn.live 7⟩) ∧
    (((CreateSession (Except.ok (Conn.live 8)) (Except.ok (List.replicate 16 0))
        [((GenTerminalSessionId (Except.ok (List.replicate 16 0))).1,
          ⟨(GenTerminalSessionId (Except.ok (List.replicate 16 0))).1, Conn.live 7⟩)]).2.2
        = none) ∧
     ((CreateSession (Except.ok (Conn.live 8)) (Except.ok (List.replicate 16 0))
        [((GenTerminalSessionId (Except.ok (List.replicate 16 0))).1,
          ⟨(GenTerminalSessionId (Except.ok (List.replicate 16 0))).1, Conn.live 7⟩)]).1 =
      ((GenTerminalSessionId (Except.ok (List.replicate 16 0))).1,
        (⟨(GenTerminalSessionId (Except.ok (List.replicate 16 0))).1,
          match (Except.ok (Conn.live 8) : Except Err Conn) with
          | .ok c => c
          | .error _ => Conn.nilConn⟩ : TerminalSession)) ::
        [((GenTerminalSessionId (Except.ok (List.replicate 16 0))).1,
          ⟨(GenTerminalSessionId (Except.ok (List.replicate 16 0))).1, Conn.live 7⟩)]) ∧
     (Registry.lookup
        (CreateSession (Except.ok (Conn.live 8)) (Except.ok (List.replicate 16 0))
          [((GenTerminalSessionId (Except.ok (List.replicate 16 0))).1,
            ⟨(GenTerminalSessionId (Except.ok (List.replicate 16 0))).1, Conn.live 7⟩)]).1
        (GenTerminalSessionId (Except.ok (List.replicate 16 0))).1
      = some ⟨(GenTerminalSessionId (Except.ok (List.replicate 16 0))).1,
          match (Except.ok (Conn.live 8) : Except Err Conn) with
          | .ok c => c
          | .error _ => Conn.nilConn⟩)) :=
  ⟨by decide,
    c10_duplicate_id_silently_overwrites
      [((GenTerminalSessionId (Except.ok (List.replicate 16 0))).1,
        ⟨(GenTerminalSessionId (Except.ok (List.replicate 16 0))).1, Conn.live 7⟩)]
      ⟨(GenTerminalSessionId (Except.ok (List.replicate 16 0))).1, Conn.live 7⟩
      (Except.ok (Conn.live 8)) (Except.ok (List.replicate 16 0)) (by decide)⟩

end KTS
